import Mathlib

/-!
Shallow embedding of the haos42-addons rgb_status_led add-on
(src/rgb_status_led/src/led_controller.py, ha_monitor.py, main.py)
and proofs about its specification claims.

Conventions of the embedding:
* Python int is modelled as ℤ, Python str as String, lists as List.
* A Python value that may be None is an Option.
* Python float arithmetic is modelled exactly where it matters:
  the literal 2.55 is the IEEE-754 double 5742089524897382 * 2 ^ (-51),
  and a product int * 2.55 is the correctly rounded (round to nearest,
  ties to even) double of the exact product, which is exact Python
  behaviour for every |int| ≤ 2 ^ 53.
* Code paths that talk to hardware or to the network are parametrised
  by the response they receive (success data or failure), and a method
  body that cannot raise in the model is a total Lean function.
-/

namespace RgbStatusLed

/-! ## led_controller.py -/

/-- An RGB colour value as the Python code passes it around: a tuple of
three Python ints.  The code nowhere restricts the channels. -/
abbrev Color := ℤ × ℤ × ℤ

/- The StatusColor class of led_controller.py: predefined status colours. -/
namespace StatusColor

def GREEN : Color := (0, 255, 0)

def AMBER : Color := (255, 165, 0)

def RED : Color := (255, 0, 0)

def BLUE : Color := (0, 0, 255)

def OFF : Color := (0, 0, 0)

def WHITE : Color := (255, 255, 255)

end StatusColor

/-- Round `n / 2 ^ k` to the nearest integer, ties to even
(the IEEE-754 significand rounding step). -/
def rneShift (n k : ℕ) : ℕ :=
  if k = 0 then n
  else
    let q := n / 2 ^ k
    let r := n % 2 ^ k
    let h := 2 ^ (k - 1)
    if h < r then q + 1
    else if r < h then q
    else if q % 2 = 0 then q else q + 1

/-- Significand of the IEEE-754 double nearest to 2.55:
the Python float literal `2.55` is exactly `d255sig * 2 ^ (-51)`
(hex 0x1.4666666666666p+1). -/
def d255sig : ℕ := 5742089524897382

/-- The Python expression `p * 2.55` for an int `p`, as the exact rational
value of the resulting double: the exact product `p * d255sig * 2 ^ (-51)`
rounded to a 53-bit significand, round to nearest, ties to even.
Exact Python semantics for every `|p| ≤ 2 ^ 53`. -/
def floatMul255 (p : ℤ) : ℚ :=
  if p = 0 then 0
  else
    let n : ℕ := p.natAbs * d255sig
    let k : ℕ := n.log2 + 1 - 53
    let m : ℕ := rneShift n k
    let v : ℚ := (m : ℚ) * 2 ^ k / 2 ^ 51
    if 0 < p then v else -v

/-- Python `int(q)` on a float: truncation toward zero. -/
def pyTrunc (q : ℚ) : ℤ :=
  if q < 0 then -⌊-q⌋ else ⌊q⌋

/-- The brightness scaling expression shared by `LEDController.__init__` and
`LEDController.set_brightness`: `min(255, max(0, int(brightness * 2.55)))`. -/
def scale_brightness (p : ℤ) : ℤ :=
  min 255 (max 0 (pyTrunc (floatMul255 p)))

/-- The formula the specification states for brightness storage,
written from the words of the spec (not from the code), for comparison:
`round(clamp(percent, 0, 100) * 2.55)`, clamped again to 0..255, with the
multiplication read as exact arithmetic. -/
def spec_scale_brightness (p : ℤ) : ℤ :=
  min 255 (max 0 (round ((min 100 (max 0 p) : ℚ) * (51 / 20 : ℚ))))

/-- The mutable state a `LEDController` instance owns in the model:
`brightness` (`self.brightness`), `current_color` (`self._current_color`)
and `initialized` (`self._initialized`).  Hardware-only fields
(`strip`, `gpio_pin`, `led_count`, `use_spi`) carry no model content. -/
structure LEDState where
  brightness : ℤ
  current_color : Color
  initialized : Bool
  deriving DecidableEq, Repr

/-- `LEDController.set_color(color)`: returns immediately (warning only)
when the strip is not initialized; otherwise stores the colour unchanged in
`self._current_color`.  Hardware errors are caught inside the method, so in
the model the state update always happens when initialized. -/
def set_color (st : LEDState) (c : Color) : LEDState :=
  if st.initialized = false then st
  else { st with current_color := c }

/-- `LEDController.set_brightness(brightness)`: stores the rescaled value. -/
def set_brightness (st : LEDState) (p : ℤ) : LEDState :=
  { st with brightness := scale_brightness p }

/-- `LEDController.cleanup()`: `if self._initialized: self.set_color(OFF)`.
Note the method body never assigns `self._initialized`. -/
def cleanup (st : LEDState) : LEDState :=
  if st.initialized then set_color st StatusColor.OFF else st

/-- A concrete running controller state used for counterexamples:
initialized, green, brightness 127 (the stored form of 50 percent). -/
def runningState : LEDState :=
  { brightness := 127, current_color := StatusColor.GREEN, initialized := true }

/-- A concrete never-initialized controller state (fresh `__init__`). -/
def freshState : LEDState :=
  { brightness := 127, current_color := StatusColor.OFF, initialized := false }

/-! ## ha_monitor.py -/

/-- The `SystemStatus` dataclass of ha_monitor.py.  Its `__post_init__`
replaces `None` lists by `[]`, so the list fields are plain lists. -/
structure SystemStatus where
  zigbee_issues : Bool
  updates_available : Bool
  unavailable_devices : List String
  pending_updates : List String
  error : Option String
  deriving DecidableEq, Repr

/-- `SystemStatus()` with all defaults, after `__post_init__`. -/
def SystemStatus.init : SystemStatus :=
  { zigbee_issues := false, updates_available := false,
    unavailable_devices := [], pending_updates := [], error := none }

/-- The JSON data one of the info endpoints (`/core/info`, `/os/info`,
`/supervisor/info`) returns.  `_api_get` yields `none` when the token is
missing or the request fails; an empty dict behaves like
`update_available = false`. -/
structure InfoData where
  update_available : Bool
  version : Option String
  version_latest : Option String
  deriving DecidableEq, Repr

/-- One entry of the `/addons` listing. -/
structure AddonInfo where
  update_available : Bool
  name : Option String
  slug : Option String
  deriving DecidableEq, Repr

/-- The shared body of `_check_core_updates`, `_check_os_updates` and
`_check_supervisor_updates`: one line
`tag ++ ": " ++ version -> version_latest` when `update_available`
is truthy, with `"unknown"` as the dict-get default. -/
def check_info_updates (tag : String) (data : Option InfoData) : List String :=
  match data with
  | none => []
  | some d =>
    if d.update_available then
      [tag ++ ": " ++ d.version.getD "unknown" ++ " -> " ++ d.version_latest.getD "unknown"]
    else []

/-- `HAMonitor._check_addon_updates`: one line per add-on with an update,
named by `name`, falling back to `slug`, then `"unknown"`. -/
def check_addon_updates (data : Option (List AddonInfo)) : List String :=
  match data with
  | none => []
  | some addons =>
    addons.foldr
      (fun a acc =>
        if a.update_available then
          ("Add-on: " ++ (a.name.getD (a.slug.getD "unknown"))) :: acc
        else acc) []

/-- `HAMonitor.check_for_updates`: concatenates the four sub-checks in the
fixed source order core, OS, supervisor, add-ons; `[]` when the update
check is disabled.  Each sub-check receives the data its own `_api_get`
call produced (`none` on any transport failure), so a failed endpoint
degrades only its own contribution. -/
def check_for_updates (check_updates : Bool)
    (core osd sup : Option InfoData) (addons : Option (List AddonInfo)) :
    List String :=
  if check_updates = false then []
  else
    check_info_updates "Core" core ++ check_info_updates "OS" osd ++
      check_info_updates "Supervisor" sup ++ check_addon_updates addons

/-- One entity from the `/core/api/states` listing, with the dict-get
defaults the code applies (`entity_id` and `state` default to `""`,
`friendly_name` to the entity id). -/
structure EntityState where
  entity_id : String
  state : String
  friendly_name : Option String
  deriving DecidableEq, Repr

/-- Python `needle in hay` on strings: `needle` occurs as a contiguous
substring of `hay` (the empty string occurs in every string). -/
def strContains (hay needle : List Char) : Bool :=
  match hay with
  | [] => needle.isEmpty
  | _ :: tl => needle.isPrefixOf hay || strContains tl needle

/-- Drop characters from `s` until the literal segment `seg` is a prefix,
then return the remainder after that earliest occurrence of `seg`;
`none` when `seg` does not occur.  This is the backtracking search the
regex fragment `.*seg` performs. -/
def firstMatchDrop (seg : List Char) : List Char → Option (List Char)
  | [] => if seg.isEmpty then some [] else none
  | c :: tl =>
    if seg.isPrefixOf (c :: tl) then some ((c :: tl).drop seg.length)
    else firstMatchDrop seg tl

/-- Match the regex `.*seg1.*seg2...` (each `segi` literal) against `s`,
with a free tail: every segment occurs, in order. -/
def findSegs : List (List Char) → List Char → Bool
  | [], _ => true
  | seg :: rest, s =>
    match firstMatchDrop seg s with
    | none => false
    | some tail => findSegs rest tail

/-- Python `pattern.split("*")` on the character list: the maximal runs of
characters between occurrences of `*`, with empty runs kept. -/
def splitOnStar : List Char → List (List Char)
  | [] => [[]]
  | c :: tl =>
    let rest := splitOnStar tl
    if c = '*' then [] :: rest
    else
      match rest with
      | [] => [[c]]
      | seg :: segs => (c :: seg) :: segs

/-- Modelled from the spec: the wildcard reading the spec states for a
pattern containing `*` — the star expands to any characters and every
other character is literal, anchored at the start like `re.match`.  Kept
separate from the definitions taken from the source, to be compared with
the regex semantics the code actually has. -/
def spec_wildcard_match (pattern s : List Char) : Bool :=
  match splitOnStar pattern with
  | [] => true
  | s0 :: rest => s0.isPrefixOf s && findSegs rest (s.drop s0.length)

/-- One atom of the regex the code builds in `_matches_zigbee_pattern`:
an unescaped `.` (matches any character) or a literal character. -/
inductive Ratom where
  | dot : Ratom
  | lit : Char → Ratom
  deriving DecidableEq, Repr

/-- One token of the built regex, in sequence order: an atom matched once,
or an atom under a `*` or `+` quantifier. -/
inductive Rtok where
  | once : Ratom → Rtok
  | star : Ratom → Rtok
  | plus : Ratom → Rtok
  deriving DecidableEq, Repr

def atom_matches : Ratom → Char → Bool
  | .dot, _ => true
  | .lit d, c => d = c

def isStarTok : Rtok → Bool
  | .star _ => true
  | _ => false

/-- One step of the matcher on subject character `c`: `next` is the
matcher for the remaining subject.  A star token either matches nothing
here (skip to the following tokens on the same position) or consumes `c`
and stays; `r+` consumes `c` and continues as `r*`. -/
def rxStep (c : Char) (next : List Rtok → Bool) : List Rtok → Bool
  | [] => true
  | .once a :: rs => atom_matches a c && next rs
  | .star a :: rs => rxStep c next rs || (atom_matches a c && next (.star a :: rs))
  | .plus a :: rs => atom_matches a c && next (.star a :: rs)

/-- `re.match` of the token sequence against the subject: the tokens must
match a prefix of the subject (the tail is free), with full backtracking —
every quantifier expansion is tried.  On an exhausted subject only star
tokens can remain. -/
def rxMatch : List Char → List Rtok → Bool
  | [], rs => rs.all isStarTok
  | c :: tl, rs => rxStep c (rxMatch tl) rs

/-- The regex metacharacters that survive
`pattern.replace(".", "\\.").replace("*", ".*")` with meanings outside the
modelled fragment. -/
def regex_special (c : Char) : Bool :=
  c = '(' || c = ')' || c = '[' || c = ']' || c = '\x7b' || c = '\x7d' ||
  c = '?' || c = '|' || c = '^' || c = '$' || c = '\\'

/-- Compile the built regex from the reversed pattern (so that a `+`,
which quantifies the atom to its left, is seen before that atom).
The code escapes `.` (a literal) and turns `*` into `.*` (a star of dot);
a `+` stays an active quantifier on the preceding literal atom.
`none` marks a pattern outside the modelled fragment: a further regex
metacharacter, a `+` with nothing admissible to its left (`re.error` in
the code), or a `+` quantifying a star. -/
def compile_rev : List Char → Option (List Rtok)
  | [] => some []
  | c :: rest =>
    if c = '+' then
      match rest with
      | [] => none
      | c2 :: rest2 =>
        if c2 = '+' || c2 = '*' || regex_special c2 then none
        else (compile_rev rest2).map fun rs => .plus (.lit c2) :: rs
    else if c = '*' then (compile_rev rest).map fun rs => .star .dot :: rs
    else if regex_special c then none
    else (compile_rev rest).map fun rs => .once (.lit c) :: rs

/-- The token sequence of `pattern.replace(".", "\\.").replace("*", ".*")`
in source order. -/
def compile_regex (pattern : List Char) : Option (List Rtok) :=
  (compile_rev pattern.reverse).map List.reverse

/-- The wildcard branch of `_matches_zigbee_pattern` as the code runs it:
`re.match` of the built regex against the subject.  Patterns outside the
modelled regex fragment compile to `none` and are mapped to `false` here;
every theorem about this branch stays inside the fragment. -/
def code_wildcard_match (pattern s : List Char) : Bool :=
  match compile_regex pattern with
  | some rx => rxMatch s rx
  | none => false

/-- A pattern whose characters are all ordinary apart from `.` and `*`:
on these the built regex has no active metacharacters. -/
def plain_pattern (pattern : List Char) : Bool :=
  pattern.all fun c => !regex_special c && !(c = '+')

/-- The single token a character of a plain pattern compiles to:
`*` becomes a star of dot, anything else a literal matched once. -/
def plain_tok (c : Char) : Rtok :=
  if c = '*' then .star .dot else .once (.lit c)

/-- `HAMonitor._matches_zigbee_pattern`: the subject is lowercased; a
pattern containing `*` is matched as the built regex (the pattern itself
is not lowercased there), any other pattern as a lowercased substring. -/
def matches_zigbee_pattern (patterns : List String) (entity_id : String) : Bool :=
  let entity_lower := entity_id.toList.map Char.toLower
  patterns.any fun pattern =>
    if pattern.toList.contains '*' then
      code_wildcard_match pattern.toList entity_lower
    else
      strContains entity_lower (pattern.toList.map Char.toLower)

/-- `entity_id.startswith("cover.")` of check_zigbee_devices. -/
def is_cover_entity (st : EntityState) : Bool :=
  "cover.".toList.isPrefixOf st.entity_id.toList

/-- `entity_state == "unavailable"` of check_zigbee_devices. -/
def is_unavailable (st : EntityState) : Bool :=
  st.state == "unavailable"

/-- `state.get("attributes", \x7b\x7d).get("friendly_name", entity_id)`:
the display name with the raw entity id as fallback. -/
def display_name (st : EntityState) : String :=
  st.friendly_name.getD st.entity_id

/-- The `for state in states` loop of `check_zigbee_devices`: skip entities
outside the `cover.` category, keep pattern-matching ones in state
`"unavailable"`, and report each by its display name. -/
def zigbee_loop (patterns : List String) : List EntityState → List String
  | [] => []
  | st :: rest =>
    if is_cover_entity st = false then
      zigbee_loop patterns rest
    else if matches_zigbee_pattern patterns st.entity_id then
      if is_unavailable st then
        display_name st :: zigbee_loop patterns rest
      else zigbee_loop patterns rest
    else zigbee_loop patterns rest

/-- `HAMonitor.check_zigbee_devices`: `[]` when the check is disabled or
the `/core/api/states` fetch fails (the `except` branch returns `[]`);
otherwise the loop above. -/
def check_zigbee_devices (check_zigbee : Bool)
    (patterns : List String) (states : Option (List EntityState)) : List String :=
  if check_zigbee = false then []
  else
    match states with
    | none => []
    | some sts => zigbee_loop patterns sts

/-- `HAMonitor.get_status`: starts from the default `SystemStatus` and runs
both checks inside one `try`.  The model is parametrised by the outcome of
each check: `Except.error e` stands for an unexpected exception with
message `e` (the expected transport failures are already absorbed inside
the checks and yield `Except.ok []`-style results).  Mutation order as in
the source: updates first, then zigbee; an exception keeps every field
assigned before it and sets `error`. -/
def get_status (updatesRes zigbeeRes : Except String (List String)) :
    SystemStatus :=
  match updatesRes with
  | .error e => { SystemStatus.init with error := some e }
  | .ok ups =>
    match zigbeeRes with
    | .error e =>
      { SystemStatus.init with
        pending_updates := ups, updates_available := !ups.isEmpty,
        error := some e }
    | .ok zs =>
      { zigbee_issues := !zs.isEmpty, updates_available := !ups.isEmpty,
        unavailable_devices := zs, pending_updates := ups, error := none }

/-- `HAMonitor.get_status_priority`, applied to the `SystemStatus` that
`self.get_status()` returned: `"error"` on zigbee issues, else
`"updates"`, else `"ok"`. -/
def get_status_priority (s : SystemStatus) : String :=
  if s.zigbee_issues then "error"
  else if s.updates_available then "updates"
  else "ok"

/-- `get_status` on a normal execution: both sub-checks run to completion —
their own `except` blocks (and the `None` returns of `_api_get`) absorb
every transport failure and missing credential — and `get_status` receives
their return values.  No exception reaches the outer `try` on this path. -/
def get_status_from_api (check_updates check_zigbee : Bool)
    (core osd sup : Option InfoData) (addons : Option (List AddonInfo))
    (patterns : List String) (states : Option (List EntityState)) : SystemStatus :=
  get_status (.ok (check_for_updates check_updates core osd sup addons))
    (.ok (check_zigbee_devices check_zigbee patterns states))

/-! ## main.py -/

/-- The attributes the class `StatusColor` of led_controller.py defines,
with their values.  There are exactly six. -/
def StatusColor_attrs : List (String × Color) :=
  [("GREEN", StatusColor.GREEN), ("AMBER", StatusColor.AMBER),
   ("RED", StatusColor.RED), ("BLUE", StatusColor.BLUE),
   ("OFF", StatusColor.OFF), ("WHITE", StatusColor.WHITE)]

/-- Python attribute lookup `StatusColor.<a>`: the value when the class
defines the attribute, an `AttributeError` otherwise. -/
def getattr_StatusColor (a : String) : Except String Color :=
  match StatusColor_attrs.lookup a with
  | some c => .ok c
  | none => .error ("AttributeError: type object StatusColor has no attribute " ++ a)

/-- The key/attribute pairs of the `COLOR_MAP` class body of
`LEDServiceHandler` in main.py, in source order: each value is written
there as `StatusColor.<attr>`. -/
def COLOR_MAP_entries : List (String × String) :=
  [("green", "OK"), ("amber", "WARNING"), ("yellow", "WARNING"),
   ("red", "ERROR"), ("blue", "STARTING"), ("white", "WHITE"), ("off", "OFF")]

/-- Evaluating the `COLOR_MAP` dict display: Python evaluates the entries
left to right and the first failing attribute lookup raises out of the
class body (so out of `import main`). -/
def build_COLOR_MAP : Except String (List (String × Color)) :=
  COLOR_MAP_entries.mapM fun e => (getattr_StatusColor e.2).map fun c => (e.1, c)

/-- Every attribute name the class `LEDController` of led_controller.py
gives its instances: methods, properties, and the instance attributes
assigned in `__init__`. -/
def LEDController_attrs : List String :=
  ["__init__", "initialize", "set_color", "set_status", "set_brightness",
   "pulse", "cleanup", "current_color", "is_initialized",
   "gpio_pin", "led_count", "brightness", "use_spi", "strip",
   "_current_color", "_initialized"]

/-- Python `hasattr(led_controller, a)`. -/
def hasattr_LEDController (a : String) : Bool :=
  LEDController_attrs.contains a

/-- Outcome of running the shutdown path of main.py on the current
controller state. -/
structure HandlerOutcome where
  shutdown_requested : Bool
  led : LEDState
  raised : Option String
  exited_zero : Bool
  deriving DecidableEq, Repr

/-- `signal_handler` of main.py: sets the global `shutdown_requested`,
then evaluates `led_controller.clear()` and only afterwards `sys.exit(0)`.
The attribute lookup `led_controller.clear` is resolved against
`LEDController_attrs`; when it is absent the `AttributeError` propagates
out of the handler and `sys.exit(0)` is never reached (the first branch
is dead code for this repository, recorded as leaving the state as found). -/
def signal_handler (st : LEDState) : HandlerOutcome :=
  if hasattr_LEDController "clear" then
    { shutdown_requested := true, led := st, raised := none, exited_zero := true }
  else
    { shutdown_requested := true, led := st,
      raised := some "AttributeError: LEDController object has no attribute clear",
      exited_zero := false }

/-! ## Theorems -/

/-- Helper: a token sequence always matches the empty regex tail. -/
theorem rxMatch_nil_toks (s : List Char) : rxMatch s [] = true := by
  cases s <;> simp [rxMatch, rxStep, List.all]

/-- Helper: when the earliest-occurrence search succeeds, the segment does
occur there, and the remainder of every other occurrence is a suffix of
the returned remainder (the earliest occurrence leaves the most room). -/
theorem firstMatchDrop_some (seg : List Char) :
    ∀ (s t : List Char), firstMatchDrop seg s = some t →
      (∃ a, s = a ++ seg ++ t) ∧ (∀ a b, s = a ++ seg ++ b → b <:+ t) := by
  intro s
  induction s with
  | nil =>
    intro t h
    by_cases hseg : seg = []
    · subst hseg
      rw [firstMatchDrop] at h
      simp at h
      subst h
      refine ⟨⟨[], rfl⟩, ?_⟩
      intro a b hab
      have h1 := congrArg List.length hab
      simp at h1
      have hb : b = [] := List.length_eq_zero.mp (by omega)
      subst hb
      exact List.suffix_rfl
    · rw [firstMatchDrop] at h
      simp [List.isEmpty_iff, hseg] at h
  | cons c tl ih =>
    intro t h
    rw [firstMatchDrop] at h
    split at h
    · rename_i hpre
      obtain ⟨u, hu⟩ := List.isPrefixOf_iff_prefix.mp hpre
      injection h with h'
      have ht : t = u := by rw [← h', ← hu, List.drop_left]
      subst ht
      constructor
      · exact ⟨[], by rw [← hu]; simp⟩
      · intro a b hab
        have hbs : b <:+ (c :: tl) := by rw [hab]; exact List.suffix_append _ _
        have hts : t <:+ (c :: tl) := by rw [← hu]; exact List.suffix_append _ _
        have hlen : b.length ≤ t.length := by
          have h1 := congrArg List.length hab
          have h2 := congrArg List.length hu
          simp [List.length_append] at h1 h2
          omega
        rcases List.suffix_or_suffix_of_suffix hbs hts with hx | hx
        · exact hx
        · rw [hx.eq_of_length_le hlen]
    · rename_i hpre
      obtain ⟨⟨a, ha⟩, hmin⟩ := ih t h
      constructor
      · exact ⟨c :: a, by simp [ha, List.cons_append]⟩
      · intro a' b hab
        cases a' with
        | nil =>
          exfalso
          apply hpre
          apply List.isPrefixOf_iff_prefix.mpr
          rw [List.nil_append] at hab
          exact ⟨b, hab.symm⟩
        | cons c' a'' =>
          simp only [List.cons_append] at hab
          injection hab with h1 h2
          exact hmin a'' b h2

/-- Helper: when the earliest-occurrence search fails, the segment occurs
nowhere in the subject. -/
theorem firstMatchDrop_none (seg : List Char) :
    ∀ (s : List Char), firstMatchDrop seg s = none → ∀ a b, s ≠ a ++ seg ++ b := by
  intro s
  induction s with
  | nil =>
    intro h a b hab
    by_cases hseg : seg = []
    · rw [firstMatchDrop] at h
      simp [List.isEmpty_iff, hseg] at h
    · have h1 := congrArg List.length hab
      simp [List.length_append] at h1
      exact hseg (List.length_eq_zero.mp (by omega))
  | cons c tl ih =>
    intro h a b hab
    rw [firstMatchDrop] at h
    split at h
    · exact absurd h (by simp)
    · rename_i hpre
      cases a with
      | nil =>
        apply hpre
        apply List.isPrefixOf_iff_prefix.mpr
        rw [List.nil_append] at hab
        exact ⟨b, hab.symm⟩
      | cons c' a'' =>
        simp only [List.cons_append] at hab
        injection hab with h1 h2
        exact ih h a'' b h2

/-- Helper: segment search succeeds in every extension of the subject to
the left (more room never hurts). -/
theorem findSegs_mono : ∀ (segs : List (List Char)) (t t' : List Char),
    t <:+ t' → findSegs segs t = true → findSegs segs t' = true := by
  intro segs
  induction segs with
  | nil => intro t t' _ _; rfl
  | cons seg rest ih =>
    intro t t' hsu h
    rw [findSegs] at h ⊢
    cases hf : firstMatchDrop seg t with
    | none => rw [hf] at h; simp at h
    | some u =>
      rw [hf] at h
      obtain ⟨⟨a, ha⟩, _⟩ := firstMatchDrop_some seg t u hf
      obtain ⟨cpre, hc⟩ := hsu
      have ht' : t' = (cpre ++ a) ++ seg ++ u := by
        rw [← hc, ha]; simp [List.append_assoc]
      cases hf' : firstMatchDrop seg t' with
      | none => exact absurd ht' (firstMatchDrop_none seg t' hf' (cpre ++ a) u)
      | some u' =>
        obtain ⟨_, hmin⟩ := firstMatchDrop_some seg t' u' hf'
        exact ih u u' (hmin (cpre ++ a) u ht') h

/-- Helper: the greedy earliest-occurrence search is complete — it
succeeds exactly when some occurrence of the head segment leaves a
remainder accepting the rest. -/
theorem findSegs_cons_iff (seg : List Char) (rest : List (List Char)) (s : List Char) :
    findSegs (seg :: rest) s = true ↔
      ∃ t, t <:+ s ∧ seg.isPrefixOf t = true ∧ findSegs rest (t.drop seg.length) = true := by
  constructor
  · intro h
    rw [findSegs] at h
    cases hf : firstMatchDrop seg s with
    | none => rw [hf] at h; simp at h
    | some u =>
      rw [hf] at h
      obtain ⟨⟨a, ha⟩, _⟩ := firstMatchDrop_some seg s u hf
      refine ⟨seg ++ u, ?_, ?_, ?_⟩
      · rw [ha, List.append_assoc]; exact List.suffix_append _ _
      · exact List.isPrefixOf_iff_prefix.mpr ⟨u, rfl⟩
      · rw [List.drop_left]; exact h
  · rintro ⟨t, ⟨cpre, hc⟩, hpre, hrest⟩
    obtain ⟨u, hu⟩ := List.isPrefixOf_iff_prefix.mp hpre
    have hdrop : t.drop seg.length = u := by rw [← hu, List.drop_left]
    have hs : s = cpre ++ seg ++ u := by rw [← hc, ← hu]; simp [List.append_assoc]
    rw [findSegs]
    cases hf : firstMatchDrop seg s with
    | none => exact absurd hs (firstMatchDrop_none seg s hf cpre u)
    | some u0 =>
      obtain ⟨_, hmin⟩ := firstMatchDrop_some seg s u0 hf
      rw [hdrop] at hrest
      exact findSegs_mono rest u u0 (hmin cpre u hs) hrest

/-- Helper: a leading star-of-dot token matches exactly when the remaining
tokens match some suffix of the subject. -/
theorem rxMatch_star_dot (rs : List Rtok) : ∀ (s : List Char),
    rxMatch s (.star .dot :: rs) = true ↔ ∃ t, t <:+ s ∧ rxMatch t rs = true := by
  intro s
  induction s with
  | nil =>
    constructor
    · intro h
      refine ⟨[], List.suffix_rfl, ?_⟩
      simpa [rxMatch, isStarTok] using h
    · rintro ⟨t, ht, h⟩
      rw [List.suffix_nil.mp ht] at h
      simpa [rxMatch, isStarTok] using h
  | cons c tl ih =>
    constructor
    · intro h
      rw [rxMatch, rxStep] at h
      simp only [atom_matches, Bool.true_and, Bool.or_eq_true] at h
      rcases h with h | h
      · exact ⟨c :: tl, List.suffix_rfl, h⟩
      · obtain ⟨t, ht, h'⟩ := ih.mp h
        exact ⟨t, ht.trans (List.suffix_cons c tl), h'⟩
    · rintro ⟨t, ht, h'⟩
      rw [rxMatch, rxStep]
      simp only [atom_matches, Bool.true_and, Bool.or_eq_true]
      rcases List.suffix_cons_iff.mp ht with rfl | ht'
      · exact Or.inl h'
      · exact Or.inr (ih.mpr ⟨t, ht', h'⟩)

/-- Helper: splitting on star never yields an empty list of runs. -/
theorem splitOnStar_ne_nil : ∀ p, splitOnStar p ≠ [] := by
  intro p
  cases p with
  | nil => simp [splitOnStar]
  | cons c tl =>
    simp only [splitOnStar]
    split
    · simp
    · split <;> simp

/-- Helper: the runs of a pattern, exposed as a head and a tail. -/
theorem splitOnStar_eq_cons (p : List Char) : ∃ s0 rest, splitOnStar p = s0 :: rest := by
  cases h : splitOnStar p with
  | nil => exact absurd h (splitOnStar_ne_nil p)
  | cons a b => exact ⟨a, b, rfl⟩

/-- Helper: a leading star opens a new empty run. -/
theorem splitOnStar_star (p : List Char) : splitOnStar ('*' :: p) = [] :: splitOnStar p := by
  simp [splitOnStar]

/-- Helper: a leading ordinary character extends the first run. -/
theorem splitOnStar_cons_of_ne (c : Char) (p : List Char) (hc : ¬ c = '*')
    (s0 : List Char) (rest : List (List Char)) (h : splitOnStar p = s0 :: rest) :
    splitOnStar (c :: p) = (c :: s0) :: rest := by
  simp [splitOnStar, hc, h]

/-- Helper: the wildcard reading of the spec, written out on the runs. -/
theorem spec_wildcard_match_eq (p s : List Char) (s0 : List Char) (rest : List (List Char))
    (h : splitOnStar p = s0 :: rest) :
    spec_wildcard_match p s = (s0.isPrefixOf s && findSegs rest (s.drop s0.length)) := by
  rw [spec_wildcard_match, h]

/-- Helper: unpacking plainness of a pattern one character at a time. -/
theorem plain_pattern_cons {c : Char} {p : List Char} (h : plain_pattern (c :: p) = true) :
    regex_special c = false ∧ ¬ c = '+' ∧ plain_pattern p = true := by
  simp only [plain_pattern, List.all_cons, Bool.and_eq_true, Bool.not_eq_true'] at h
  refine ⟨h.1.1, ?_, h.2⟩
  intro hc
  rw [hc] at h
  simpa using h.1.2

/-- Helper: on a plain pattern the compiler succeeds and emits exactly one
token per character. -/
theorem compile_rev_plain : ∀ p, plain_pattern p = true →
    compile_rev p = some (p.map plain_tok) := by
  intro p
  induction p with
  | nil => intro _; rfl
  | cons c tl ih =>
    intro h
    obtain ⟨h1, h2, h3⟩ := plain_pattern_cons h
    by_cases hc : c = '*'
    · subst hc
      rw [compile_rev.eq_def]
      simp [ih h3, plain_tok]
    · rw [compile_rev.eq_def]
      simp [h1, h2, hc, ih h3, plain_tok]

/-- Helper: the same, for the forward-order compiler. -/
theorem compile_regex_plain (p : List Char) (h : plain_pattern p = true) :
    compile_regex p = some (p.map plain_tok) := by
  have hrev : plain_pattern p.reverse = true := by
    simp only [plain_pattern, List.all_reverse]
    exact h
  rw [compile_regex, compile_rev_plain _ hrev]
  simp

/-- Helper: on a plain pattern the regex matcher and the literal wildcard
reading of the spec agree, for every subject. -/
theorem rxMatch_plain : ∀ (p s : List Char), plain_pattern p = true →
    rxMatch s (p.map plain_tok) = spec_wildcard_match p s := by
  intro p
  induction p with
  | nil =>
    intro s _
    rw [List.map_nil, rxMatch_nil_toks]
    rw [spec_wildcard_match]
    simp [splitOnStar, findSegs]
  | cons c tl ih =>
    intro s h
    obtain ⟨h1, h2, h3⟩ := plain_pattern_cons h
    obtain ⟨s0, rest, hsp⟩ := splitOnStar_eq_cons tl
    by_cases hc : c = '*'
    · subst hc
      have hmap : ('*' :: tl).map plain_tok = .star .dot :: tl.map plain_tok := by
        simp [plain_tok]
      rw [hmap]
      have hspec : spec_wildcard_match ('*' :: tl) s = findSegs (s0 :: rest) s := by
        rw [spec_wildcard_match, splitOnStar_star, hsp]
        simp
      rw [hspec, Bool.eq_iff_iff, rxMatch_star_dot, findSegs_cons_iff]
      constructor
      · rintro ⟨t, ht, hm⟩
        rw [ih t h3, spec_wildcard_match_eq tl t s0 rest hsp, Bool.and_eq_true] at hm
        exact ⟨t, ht, hm.1, hm.2⟩
      · rintro ⟨t, ht, hp, hf⟩
        refine ⟨t, ht, ?_⟩
        rw [ih t h3, spec_wildcard_match_eq tl t s0 rest hsp, Bool.and_eq_true]
        exact ⟨hp, hf⟩
    · have hmap : (c :: tl).map plain_tok = .once (.lit c) :: tl.map plain_tok := by
        simp [plain_tok, hc]
      rw [hmap, spec_wildcard_match, splitOnStar_cons_of_ne c tl hc s0 rest hsp]
      cases s with
      | nil =>
        simp [rxMatch, isStarTok, List.isPrefixOf]
      | cons d tl' =>
        rw [rxMatch, rxStep]
        simp only [atom_matches]
        rw [ih tl' h3, spec_wildcard_match_eq tl tl' s0 rest hsp]
        show (decide (c = d) && (s0.isPrefixOf tl' && findSegs rest (tl'.drop s0.length))) =
          ((c :: s0).isPrefixOf (d :: tl') && findSegs rest ((d :: tl').drop (c :: s0).length))
        rw [List.isPrefixOf_cons₂, List.length_cons, List.drop_succ_cons]
        rw [Bool.eq_iff_iff]
        simp [Bool.and_assoc, beq_iff_eq, decide_eq_true_eq]

/-- Helper: the agreement lifted to the wildcard branch as the code runs
it — for plain patterns, the built regex is exactly the literal wildcard
reading. -/
theorem code_wildcard_plain (p s : List Char) (h : plain_pattern p = true) :
    code_wildcard_match p s = spec_wildcard_match p s := by
  rw [code_wildcard_match, compile_regex_plain p h]
  exact rxMatch_plain p s h

/-- Helper: the zigbee scan loop collects exactly the display names of the
cover entities that match a pattern and are unavailable, in order. -/
theorem zigbee_loop_eq_filter_map (patterns : List String) (states : List EntityState) :
    zigbee_loop patterns states =
      (states.filter fun st =>
        is_cover_entity st && matches_zigbee_pattern patterns st.entity_id &&
          is_unavailable st).map display_name := by
  induction states with
  | nil => rfl
  | cons st rest ih =>
    cases hc : is_cover_entity st with
    | false => simp [zigbee_loop, hc, ih, List.filter_cons]
    | true =>
      cases hm : matches_zigbee_pattern patterns st.entity_id with
      | false => simp [zigbee_loop, hc, hm, ih, List.filter_cons]
      | true =>
        cases hu : is_unavailable st with
        | false => simp [zigbee_loop, hc, hm, hu, ih, List.filter_cons]
        | true => simp [zigbee_loop, hc, hm, hu, ih, List.filter_cons]

/-- Claim C1: for every reachable snapshot, the status reduction of
get_status_priority yields the string for Error exactly when
unavailable_devices is nonempty (regardless of pending updates), otherwise
the string for Warning exactly when pending_updates is nonempty, otherwise
the string for Ok — also when the error field is set while both lists are
empty.  Quantifying over the outcome of each sub-check covers every
snapshot get_status can produce. -/
theorem status_reduction_precedence (u z : Except String (List String)) :
    get_status_priority (get_status u z) =
      if (get_status u z).unavailable_devices ≠ [] then "error"
      else if (get_status u z).pending_updates ≠ [] then "updates"
      else "ok" := by
  cases u with
  | error e => simp [get_status, get_status_priority, SystemStatus.init]
  | ok ups =>
    cases z with
    | error e => cases ups <;> simp [get_status, get_status_priority, SystemStatus.init]
    | ok zs => cases zs <;> cases ups <;> simp [get_status, get_status_priority]

/-- Claim C2 (code bug witness): on a termination signal, signal_handler
of main.py calls led_controller.clear(), but the LEDController class
defines no attribute named clear (the method that turns the LEDs off is
named cleanup).  The lookup therefore raises AttributeError: the handler
never reaches sys.exit(0), the colour is never set to Off, and the device
is left exactly as it was. -/
theorem shutdown_clear_attribute_missing :
    hasattr_LEDController "clear" = false ∧
    hasattr_LEDController "cleanup" = true ∧
    (signal_handler runningState).raised =
      some "AttributeError: LEDController object has no attribute clear" ∧
    (signal_handler runningState).exited_zero = false ∧
    (signal_handler runningState).led = runningState ∧
    (signal_handler runningState).led.current_color ≠ StatusColor.OFF := by
  decide

/-- Claim C3 (counterexample): cleanup() does not mark the device
uninitialized — started from an initialized state, the initialized flag is
still true after cleanup(), contradicting the claim that it is false after
any cleanup() call. -/
theorem cleanup_keeps_initialized_flag :
    (cleanup runningState).initialized ≠ false := by
  decide

/-- Claim C3 (amended): cleanup() sets the colour to Off when the device
is initialized, is idempotent and safe to call any number of times, also
when initialization never succeeded (the body is total, so it raises
nothing), and leaves the initialized flag exactly as it was — it does not
mark the device uninitialized. -/
theorem cleanup_behaviour (st : LEDState) :
    (st.initialized = true → (cleanup st).current_color = StatusColor.OFF) ∧
    cleanup (cleanup st) = cleanup st ∧
    (cleanup st).initialized = st.initialized := by
  cases h : st.initialized with
  | false => simp [cleanup, h]
  | true => simp [cleanup, set_color, h]

/-- Claim C3 amended, witnessed at a concrete initialized state. -/
theorem cleanup_behaviour_witness :
    (cleanup runningState).current_color = StatusColor.OFF ∧
    cleanup (cleanup runningState) = cleanup runningState := by
  exact ⟨(cleanup_behaviour runningState).1 rfl, (cleanup_behaviour runningState).2.1⟩

/-- Claim C4 (counterexample): an internal failure that is not captured
into the error field.  With the credential missing or every endpoint
failing at the transport level, `_api_get` returns None and the states
fetch takes its `except` branch, so both sub-checks return empty lists and
`get_status` leaves the error field unset — the claim says any internal
failure is captured into the snapshot error field. -/
theorem transport_failure_not_captured :
    (get_status_from_api true true none none none none ["lumi"] none).error = none ∧
    (get_status_from_api true true none none none none ["lumi"] none).pending_updates = [] ∧
    (get_status_from_api true true none none none none ["lumi"] none).unavailable_devices = [] := by
  exact ⟨rfl, rfl, rfl⟩

/-- Claim C4 (amended): get_status is total in the model (it never raises
to its caller).  Two failure regimes: an expected transport failure or
missing credential is absorbed inside the failing sub-check, leaving only
that sub-check contribution empty and the error field unset — a failed
core-info fetch leaves the OS, supervisor and add-on results intact, a
failed states fetch degrades the zigbee check to the empty list, and on
this path the error field is always none.  Only an unexpected exception
escaping a sub-check is captured into the error field, with every list not
yet assigned left empty; a zigbee failure keeps the collected updates, an
updates failure leaves both lists empty.  In both regimes a failure in one
sub-check does not discard results collected by another. -/
theorem get_status_failure_isolation (e : String) (ups zs : List String)
    (z : Except String (List String)) (patterns : List String)
    (core osd sup : Option InfoData) (addons : Option (List AddonInfo))
    (states : Option (List EntityState)) :
    (get_status (.error e) z).pending_updates = [] ∧
    (get_status (.error e) z).unavailable_devices = [] ∧
    (get_status (.error e) z).error = some e ∧
    (get_status (.ok ups) (.error e)).pending_updates = ups ∧
    (get_status (.ok ups) (.error e)).unavailable_devices = [] ∧
    (get_status (.ok ups) (.error e)).error = some e ∧
    (get_status (.ok ups) (.ok zs)).pending_updates = ups ∧
    (get_status (.ok ups) (.ok zs)).unavailable_devices = zs ∧
    (get_status (.ok ups) (.ok zs)).error = none ∧
    check_for_updates true none osd sup addons =
      check_info_updates "OS" osd ++ check_info_updates "Supervisor" sup ++
        check_addon_updates addons ∧
    check_zigbee_devices true patterns none = [] ∧
    (get_status_from_api true true core osd sup addons patterns states).error = none := by
  refine ⟨rfl, rfl, rfl, rfl, rfl, rfl, rfl, rfl, rfl, ?_, rfl, rfl⟩
  simp [check_for_updates, check_info_updates]

/-- Claim C5 (code bug witness): the COLOR_MAP class body of main.py maps
the colour names to StatusColor.OK, StatusColor.WARNING, StatusColor.ERROR
and StatusColor.STARTING, but the StatusColor class of led_controller.py
defines none of those attributes (it defines GREEN, AMBER, RED, BLUE, OFF,
WHITE).  Evaluating the dict display therefore raises AttributeError at
its first entry, so the control surface can never validate a colour name
or issue a setColor call. -/
theorem color_map_construction_raises :
    build_COLOR_MAP =
      .error "AttributeError: type object StatusColor has no attribute OK" ∧
    StatusColor_attrs.lookup "OK" = none ∧
    StatusColor_attrs.lookup "WARNING" = none ∧
    StatusColor_attrs.lookup "ERROR" = none ∧
    StatusColor_attrs.lookup "STARTING" = none := by
  exact ⟨rfl, rfl, rfl, rfl, rfl⟩

/-- Claim C6 (counterexample): the wildcard branch does not treat every
non-star character as literal.  The code builds the regex cover\.x+y.*
from the pattern cover.x+y*, in which the plus stays an active quantifier,
so the entity cover.xxy_blind matches in the code although it contains no
literal plus — under the literal wildcard reading of the claim the same
pattern does not match the same entity. -/
theorem wildcard_metacharacters_stay_active :
    matches_zigbee_pattern ["cover.x+y*"] "cover.xxy_blind" = true ∧
    spec_wildcard_match "cover.x+y*".toList "cover.xxy_blind".toList = false := by
  decide

/-- Claim C6 (amended): the device-availability check keeps exactly the
cover entities whose id matches the pattern set and whose state is
unavailable, reported by display name with the raw id as fallback.  A
pattern without star matches as a case-insensitive substring.  A pattern
with star is matched as the regex the code builds — dots escaped, each
star turned into dot-star, anchored at the start — so star stands for any
characters and a dot is literal, but other regex metacharacters remain
active; on patterns with no metacharacter besides dot and star this regex
coincides with the literal wildcard reading, for every subject.  The
documented examples hold: cover.lumi_blind_1 matches pattern lumi,
cover.acn002_blind matches wildcard cover.*acn002, and button.lumi_switch
matches a pattern yet is excluded because it is not a cover entity. -/
theorem zigbee_selection_characterization :
    (∀ (patterns : List String) (states : List EntityState),
      zigbee_loop patterns states =
        (states.filter fun st =>
          is_cover_entity st && matches_zigbee_pattern patterns st.entity_id &&
            is_unavailable st).map display_name) ∧
    (∀ (p s : List Char), plain_pattern p = true →
      code_wildcard_match p s = spec_wildcard_match p s) ∧
    matches_zigbee_pattern ["lumi"] "cover.lumi_blind_1" = true ∧
    matches_zigbee_pattern ["cover.*acn002"] "cover.acn002_blind" = true ∧
    matches_zigbee_pattern ["LuMi"] "COVER.lumi_blind_1" = true ∧
    matches_zigbee_pattern ["lumi"] "button.lumi_switch" = true ∧
    check_zigbee_devices true ["lumi"]
      (some [⟨"button.lumi_switch", "unavailable", none⟩]) = [] ∧
    check_zigbee_devices true ["lumi"]
      (some [⟨"cover.lumi_blind_1", "unavailable", some "Living Room Blind"⟩]) =
        ["Living Room Blind"] ∧
    check_zigbee_devices true ["lumi"]
      (some [⟨"cover.lumi_blind_1", "unavailable", none⟩]) = ["cover.lumi_blind_1"] := by
  refine ⟨zigbee_loop_eq_filter_map, code_wildcard_plain, ?_, ?_, ?_, ?_, ?_, ?_, ?_⟩ <;> decide

/-- Claim C6 amended, witnessed at the documented wildcard pattern: the
regex the code builds for cover.*acn002 agrees with the literal wildcard
reading on the documented entity. -/
theorem zigbee_selection_characterization_witness :
    code_wildcard_match "cover.*acn002".toList "cover.acn002_blind".toList =
      spec_wildcard_match "cover.*acn002".toList "cover.acn002_blind".toList := by
  exact zigbee_selection_characterization.2.1 "cover.*acn002".toList
    "cover.acn002_blind".toList (by decide)

/-- Claim C7 (counterexample): the stored brightness is not
round(clamp(percent, 0, 100) * 2.55) clamped to 0..255.  At percent = 100
the code computes int(100 * 2.55) where 100 * 2.55 is the double
254.99999999999997, truncating to 254; the formula of the claim gives 255. -/
theorem brightness_scaling_differs_from_spec :
    scale_brightness 100 = 254 ∧ spec_scale_brightness 100 = 255 ∧
    scale_brightness 100 ≠ spec_scale_brightness 100 := by
  have hn : ((100 : ℤ).natAbs * d255sig) = 574208952489738200 := by norm_num [d255sig]
  have hlog : Nat.log2 574208952489738200 = 58 := by norm_num [Nat.log2]
  have hm : rneShift 574208952489738200 6 = 8972014882652159 := by norm_num [rneShift]
  have hv : floatMul255 100 = (8972014882652159 : ℚ) * 2 ^ 6 / 2 ^ 51 := by
    simp only [floatMul255, hn, hlog]
    norm_num [hm]
  have hneg : ¬ ((8972014882652159 : ℚ) * 2 ^ 6 / 2 ^ 51 < 0) := by norm_num
  have ht : pyTrunc (floatMul255 100) = 254 := by
    rw [hv, pyTrunc, if_neg hneg, Int.floor_eq_iff]
    norm_num
  have h1 : scale_brightness 100 = 254 := by
    rw [scale_brightness, ht]; decide
  have h2 : spec_scale_brightness 100 = 255 := by
    rw [spec_scale_brightness]
    have hq : (min 100 (max 0 ((100 : ℤ) : ℚ))) * (51 / 20 : ℚ) = ((255 : ℤ) : ℚ) := by
      norm_num
    rw [hq, round_intCast]
    decide
  exact ⟨h1, h2, by rw [h1, h2]; decide⟩

/-- Claim C7 (amended): for every integer percentage, including negative
values and values above 100, the stored brightness is
min(255, max(0, int(percent * 2.55))) with the product taken in double
precision and int truncating toward zero — truncation, not rounding, so at
percent = 100 the stored value is 254 — and it always lies in [0, 255]. -/
theorem brightness_scaling_bounds (p : ℤ) :
    0 ≤ scale_brightness p ∧ scale_brightness p ≤ 255 := by
  exact ⟨le_min (by norm_num) (le_max_left 0 _), min_le_left _ _⟩

/-- Claim C8: set_color on a device that is not initialized returns
without touching any field of the state (and the body is total: nothing
is raised to the caller). -/
theorem set_color_uninitialized_noop (st : LEDState) (c : Color)
    (h : st.initialized = false) : set_color st c = st := by
  simp [set_color, h]

/-- Claim C8, witnessed at a fresh state and an arbitrary colour. -/
theorem set_color_uninitialized_noop_witness :
    set_color freshState (255, 0, 0) = freshState := by
  exact set_color_uninitialized_noop freshState (255, 0, 0) rfl

/-- Claim C9 (counterexample): set_color does not clamp channel values.
On an initialized device, set_color with channel value 300 stores 300
unchanged, outside [0, 255]. -/
theorem set_color_does_not_clamp :
    (set_color runningState (300, 0, 0)).current_color = (300, 0, 0) ∧
    ¬ ((set_color runningState (300, 0, 0)).current_color.1 ≤ 255) := by
  decide

/-- Claim C9 (amended): for every colour passed to set_color on an
initialized device, the stored current colour is the input exactly as
given; no clamping to [0, 255] is performed anywhere. -/
theorem set_color_stores_input (st : LEDState) (c : Color)
    (h : st.initialized = true) : (set_color st c).current_color = c := by
  simp [set_color, h]

/-- Claim C9 amended, witnessed at a concrete out-of-range colour. -/
theorem set_color_stores_input_witness :
    (set_color runningState (999, -7, 42)).current_color = (999, -7, 42) := by
  exact set_color_stores_input runningState (999, -7, 42) rfl

/-- Claim C10: after every get_status call the returned SystemStatus is
internally consistent — updates_available holds exactly when
pending_updates is nonempty and zigbee_issues exactly when
unavailable_devices is nonempty — for every outcome of the two sub-checks,
including the ones that set the error field (and the list fields are
always genuine lists, by their type in the embedding of the dataclass
after post-init). -/
theorem get_status_flags_consistent (u z : Except String (List String)) :
    ((get_status u z).updates_available = true ↔
      (get_status u z).pending_updates ≠ []) ∧
    ((get_status u z).zigbee_issues = true ↔
      (get_status u z).unavailable_devices ≠ []) := by
  cases u with
  | error e => simp [get_status, SystemStatus.init]
  | ok ups =>
    cases z with
    | error e => cases ups <;> simp [get_status, SystemStatus.init]
    | ok zs => cases zs <;> cases ups <;> simp [get_status]

end RgbStatusLed
